import Mathlib

/-!
Shallow embedding of the key-management server core: the RBAC service
(role hierarchy, capability table, route access), the OTP manager
(creation, verification, attempt counting), the account-lockout logic of
the user model and login route, and the key lifecycle state machine
(assign / return / maintenance / available and the pre-save hook).
Each definition translates the corresponding JavaScript/TypeScript
function of the repository; theorems settle the specification claims.
-/

/-- Outcome of a JavaScript method that either returns a value or throws
an `Error(msg)`. The source key-lifecycle methods signal expected
business failures by throwing; they have no typed error channel. -/
inductive JSOutcome (α : Type) where
  | ok : α → JSOutcome α
  | thrown : String → JSOutcome α
deriving DecidableEq, Repr

/-- Whether a call returned normally (did not throw). -/
def JSOutcome.isOk {α : Type} : JSOutcome α → Bool
  | .ok _ => true
  | .thrown _ => false

/-- JavaScript `email.toLowerCase()` on the character list of a string. -/
def jsToLower (s : String) : String := ⟨s.data.map Char.toLower⟩

namespace RBAC

/-- Source `ROLE_HIERARCHY` object: role → integer level, with the JS
lookup default `|| 0` for unknown keys. -/
def ROLE_HIERARCHY (role : String) : Nat :=
  if role = "faculty" then 1
  else if role = "security" then 2
  else if role = "hod" then 3
  else if role = "security_incharge" then 4
  else if role = "admin" then 5
  else 0

/-- Source `ROLE_PERMISSIONS` object. Property lookup returns `none` for
keys absent from the object literal; note the object has no `admin` key. -/
def ROLE_PERMISSIONS (role : String) : Option (List String) :=
  if role = "faculty" then
    some ["keys:view_own", "keys:request", "keys:return",
          "profile:view_own", "profile:update_own", "history:view_own"]
  else if role = "security" then
    some ["keys:view_all", "keys:scan", "keys:approve_return",
          "keys:track_location", "transactions:view_all",
          "profile:view_own", "profile:update_own", "reports:view_daily"]
  else if role = "hod" then
    some ["keys:view_department", "keys:approve_request", "keys:assign",
          "faculty:view_department", "faculty:manage_department",
          "reports:view_department", "analytics:view_department",
          "profile:view_own", "profile:update_own"]
  else if role = "security_incharge" then
    some ["keys:view_all", "keys:manage_all", "keys:scan",
          "keys:approve_return", "keys:track_location", "security:manage",
          "transactions:view_all", "reports:view_all", "analytics:view_all",
          "profile:view_own", "profile:update_own", "users:view_security"]
  else none

/-- Source `ROUTE_ACCESS` object, in its literal (insertion) order. -/
def ROUTE_ACCESS : List (String × List String) :=
  [("/faculty", ["faculty", "hod"]),
   ("/security", ["security", "security_incharge"]),
   ("/hod", ["hod"]),
   ("/securityincharge", ["security_incharge"])]

/-- Source public-route fallback list inside `canAccessRoute`. -/
def publicRoutes : List String := ["/", "/login", "/register", "/health"]

/-- JavaScript `s.startsWith(pre)`, as a prefix test on character lists. -/
def jsStartsWith (s pre : String) : Bool := pre.data.isPrefixOf s.data

/-- The five role strings of the system (keys of `ROLE_HIERARCHY`). -/
def ROLES : List String :=
  ["faculty", "security", "hod", "security_incharge", "admin"]

/-- Source `hasPermission(role, permission)`: falsy-argument guard, then
membership of the permission in the entry of the role in `ROLE_PERMISSIONS`
(defaulting to the empty list). -/
def hasPermission (role permission : String) : Bool :=
  if role = "" || permission = "" then false
  else ((ROLE_PERMISSIONS role).getD []).contains permission

/-- Source `hasRoleLevel(userRole, requiredRole)`: falsy guard, then
`userLevel >= requiredLevel` on `ROLE_HIERARCHY` lookups. -/
def hasRoleLevel (userRole requiredRole : String) : Bool :=
  if userRole = "" || requiredRole = "" then false
  else ROLE_HIERARCHY requiredRole ≤ ROLE_HIERARCHY userRole

/-- Source `canAccessRoute(role, route)`: falsy guard; iterate
`ROUTE_ACCESS` entries in insertion order and return on the FIRST entry
whose pattern is a prefix of the route (`route.startsWith(routePattern)`);
otherwise exact membership in the public-route list. -/
def canAccessRoute (role route : String) : Bool :=
  if role = "" || route = "" then false
  else
    match ROUTE_ACCESS.find? (fun e => jsStartsWith route e.fst) with
    | some e => e.snd.contains role
    | none => publicRoutes.contains route

/-- Modelled from the spec: the spec instead describes `canAccessRoute`
as a longest-prefix match of the route against the table, with unmatched
routes falling back to the exact public allowlist. Used only to compare
the description in the spec with the source behaviour. -/
def canAccessRouteLongestMatch (role route : String) : Bool :=
  if role = "" || route = "" then false
  else
    match ROUTE_ACCESS.foldl
        (fun acc e =>
          if jsStartsWith route e.fst then
            match acc with
            | none => some e
            | some b => if b.fst.length < e.fst.length then some e else acc
          else acc) none with
    | some e => e.snd.contains role
    | none => publicRoutes.contains route

end RBAC

namespace KeyModel

/-- The `currentStatus` enum of the key schema. -/
inductive KeyStatus where
  | available | assigned | maintenance | lost | damaged
deriving DecidableEq, Repr

/-- The embedded `currentAssignment` subdocument; all fields default to
`null`. Timestamps are epoch milliseconds. -/
structure CurrentAssignment where
  assignedTo : Option String
  assignedAt : Option Nat
  expectedReturnAt : Option Nat
  purpose : Option String
deriving DecidableEq, Repr

/-- The all-`null` assignment value that the source writes when clearing
an assignment. -/
def emptyAssignment : CurrentAssignment :=
  { assignedTo := none, assignedAt := none,
    expectedReturnAt := none, purpose := none }

/-- The fields of a key document that the lifecycle methods and the
pre-save hook read or write. -/
structure Key where
  keyId : String
  currentStatus : KeyStatus
  maxAllowedTime : Nat
  allowedRoles : List String
  currentAssignment : CurrentAssignment
  lastMaintenance : Option Nat
  maintenanceNotes : Option String
  qrCode : Option String
deriving DecidableEq, Repr

/-- Source pre-save hook of `keySchema`: generate the QR code when
missing, reject a save of an `assigned` key with no holder, and clear the
assignment of a non-`assigned` key that still has a holder. -/
def saveKey (k : Key) : JSOutcome Key :=
  let k1 := if k.qrCode = none ∧ k.keyId ≠ "" then
      { k with qrCode := some (k.keyId ++ "-QR") } else k
  if k1.currentStatus = .assigned ∧ k1.currentAssignment.assignedTo = none then
    .thrown "Assigned key must have assignedTo user"
  else if k1.currentStatus ≠ .assigned ∧ k1.currentAssignment.assignedTo ≠ none then
    .ok { k1 with currentAssignment := emptyAssignment }
  else
    .ok k1

/-- The JS expression `Math.min(durationMinutes || maxAllowed, maxAllowed)`
from `assignTo`: an absent or zero duration is falsy and defaults to
`maxAllowed`. -/
def effectiveDuration (durationMinutes : Option Nat) (maxAllowed : Nat) : Nat :=
  match durationMinutes with
  | none => maxAllowed
  | some d => if d = 0 then maxAllowed else min d maxAllowed

/-- The JS default-purpose expression (purpose OR the literal General
use) from `assignTo`: an
absent or empty purpose is falsy. -/
def purposeOrDefault (purpose : Option String) : String :=
  match purpose with
  | none => "General use"
  | some p => if p = "" then "General use" else p

/-- The document produced in memory by `assignTo` before its save. -/
def assignDoc (k : Key) (userId : Option String) (purpose : Option String)
    (durationMinutes : Option Nat) (now : Nat) : Key :=
  { k with
    currentStatus := .assigned,
    currentAssignment :=
      { assignedTo := userId, assignedAt := some now,
        expectedReturnAt :=
          some (now + effectiveDuration durationMinutes k.maxAllowedTime * 60 * 1000),
        purpose := some (purposeOrDefault purpose) } }

/-- Source `assignTo(userId, purpose, durationMinutes)`: throws unless
the key is `available`; otherwise sets status `assigned`, fills the
assignment fields with the effective duration, and saves. -/
def assignTo (k : Key) (userId : Option String) (purpose : Option String)
    (durationMinutes : Option Nat) (now : Nat) : JSOutcome Key :=
  if k.currentStatus ≠ .available then
    .thrown "Key is not available for assignment"
  else
    saveKey (assignDoc k userId purpose durationMinutes now)

/-- Source `returnKey()`: throws unless `assigned`; clears the assignment,
sets the status to `available` and saves. -/
def returnKey (k : Key) : JSOutcome Key :=
  if k.currentStatus ≠ .assigned then
    .thrown "Key is not currently assigned"
  else
    saveKey { k with currentStatus := .available,
                     currentAssignment := emptyAssignment }

/-- The document produced in memory by `markAsMaintenance` before its
save: status `maintenance`, maintenance date stamped, truthy notes
stored, and the assignment cleared when it had a holder. -/
def maintenanceDoc (k : Key) (notes : Option String) (now : Nat) : Key :=
  let k1 := { k with
    currentStatus := KeyStatus.maintenance,
    lastMaintenance := some now,
    maintenanceNotes :=
      match notes with
      | none => k.maintenanceNotes
      | some n => if n = "" then k.maintenanceNotes else some n }
  if k1.currentAssignment.assignedTo ≠ none then
    { k1 with currentAssignment := emptyAssignment }
  else k1

/-- Source `markAsMaintenance(notes)`: allowed from any status; builds
the maintenance document and saves it. -/
def markAsMaintenance (k : Key) (notes : Option String) (now : Nat) :
    JSOutcome Key :=
  saveKey (maintenanceDoc k notes now)

/-- Source `markAsAvailable()`: throws if the key is `assigned`;
otherwise sets the status to `available` and saves. -/
def markAsAvailable (k : Key) : JSOutcome Key :=
  if k.currentStatus = .assigned then
    .thrown "Cannot mark assigned key as available. Return the key first."
  else
    saveKey { k with currentStatus := .available }

/-- Stored state after a method call: the document write happens only
when the method (including its pre-save hook) succeeds; a throw leaves
the stored key unchanged. -/
def keyStoreAfter (k : Key) : JSOutcome Key → Key
  | .ok k' => k'
  | .thrown _ => k

/-- The key-document invariant of the spec: `status = assigned` exactly
when the assignment has a holder, and any other status has all four
assignment fields cleared. -/
def KeyInvariant (k : Key) : Prop :=
  (k.currentStatus = .assigned ↔ k.currentAssignment.assignedTo ≠ none) ∧
  (k.currentStatus ≠ .assigned → k.currentAssignment = emptyAssignment)

instance (k : Key) : Decidable (KeyInvariant k) := by
  unfold KeyInvariant; infer_instance

/-- A concrete available key used as an input for counterexamples and
witnesses (the `K001` of the scenarios in the spec). -/
def sampleAvailableKey : Key :=
  { keyId := "K001", currentStatus := .available, maxAllowedTime := 480,
    allowedRoles := [], currentAssignment := emptyAssignment,
    lastMaintenance := none, maintenanceNotes := none,
    qrCode := some "K001-QR" }

/-- A concrete key under maintenance, a non-`available` input. -/
def sampleMaintenanceKey : Key :=
  { keyId := "K002", currentStatus := .maintenance, maxAllowedTime := 480,
    allowedRoles := [], currentAssignment := emptyAssignment,
    lastMaintenance := some 500, maintenanceNotes := none,
    qrCode := some "K002-QR" }

end KeyModel

namespace OTPModel

/-- One document of the OTP collection (the fields of `otpSchema`). -/
structure OTPRec where
  email : String
  otp : String
  purpose : String
  attempts : Nat
  isUsed : Bool
  expiresAt : Nat
  createdAt : Nat
deriving DecidableEq, Repr

/-- The OTP collection, kept newest-first (creation prepends, matching
the `sort({ createdAt: -1 })` read order of `findLatestOTP`). -/
def OTPStore := List OTPRec

/-- Source pre-save hook of `otpSchema` for a new document followed by its
insert, as performed by `OTPService.createOTP`: `updateMany` marks every
non-used record of the same (email, purpose) as used, then the new
record (lower-cased email, zero attempts, fresh expiry) is stored. -/
def createOTP (s : List OTPRec) (email purpose code : String)
    (now ttl : Nat) : List OTPRec :=
  let e := jsToLower email
  let marked := s.map fun r =>
    if r.email = e ∧ r.purpose = purpose ∧ r.isUsed = false then
      { r with isUsed := true }
    else r
  { email := e, otp := code, purpose := purpose, attempts := 0,
    isUsed := false, expiresAt := now + ttl, createdAt := now } :: marked

/-- The filter of source `findValidOTP`: matching email (lower-cased),
code and purpose, not used, not expired (`expiresAt > now`), and fewer
than 5 attempts. -/
def validPred (email otp purpose : String) (now : Nat) (r : OTPRec) : Bool :=
  r.email == jsToLower email && r.otp == otp && r.purpose == purpose &&
    !r.isUsed && decide (now < r.expiresAt) && decide (r.attempts < 5)

/-- The filter of source `findLatestOTP`: matching email (lower-cased)
and purpose, not used, not expired — with NO attempts bound. -/
def latestPred (email purpose : String) (now : Nat) (r : OTPRec) : Bool :=
  r.email == jsToLower email && r.purpose == purpose &&
    !r.isUsed && decide (now < r.expiresAt)

/-- Source `otp.isValid()`: not used, not expired (`isExpired` is
`expiresAt < now`), and fewer than 5 attempts. -/
def isValidRec (r : OTPRec) (now : Nat) : Bool :=
  !r.isUsed && !(decide (r.expiresAt < now)) && decide (r.attempts < 5)

/-- Update the first record matching `p` in place (the document found by
`findOne` and then saved back). -/
def updateFirst (p : OTPRec → Bool) (f : OTPRec → OTPRec) :
    List OTPRec → List OTPRec
  | [] => []
  | r :: rest => if p r then f r :: rest else r :: updateFirst p f rest

/-- Result codes of `OTPService.verifyOTP`. -/
inductive VerifyCode where
  | success | invalidOtp | otpExpired
deriving DecidableEq, Repr

/-- The save-validator of the `attempts` path of `otpSchema`
(`attempts: max 5`): a document `save()` is rejected unless the current
attempts value is at most 5. -/
def attemptsValid (r : OTPRec) : Bool := r.attempts ≤ 5

/-- Source `OTPService.verifyOTP(email, otpCode, purpose)`: look up a
valid OTP (`findValidOTP`); when none matches, increment the attempt
counter of the latest non-used, non-expired record (if any) and fail
with `INVALID_OTP`; when one matches, re-check `isValid()` (failing with
`OTP_EXPIRED`), otherwise mark it used and succeed. Every `save()` runs
the `attemptsValid` schema validator; a rejected save throws, and the
surrounding catch block rethrows `Failed to verify OTP`, leaving the
store unchanged. -/
def verifyOTP (s : List OTPRec) (email code purpose : String) (now : Nat) :
    JSOutcome (VerifyCode × List OTPRec) :=
  match s.find? (validPred email code purpose now) with
  | none =>
    match s.find? (latestPred email purpose now) with
    | some latest =>
      if !latest.isUsed then
        if attemptsValid { latest with attempts := latest.attempts + 1 } then
          .ok (.invalidOtp,
            updateFirst (latestPred email purpose now)
              (fun r => { r with attempts := r.attempts + 1 }) s)
        else .thrown "Failed to verify OTP"
      else .ok (.invalidOtp, s)
    | none => .ok (.invalidOtp, s)
  | some r =>
    if isValidRec r now then
      if attemptsValid { r with isUsed := true } then
        .ok (.success,
          updateFirst (validPred email code purpose now)
            (fun x => { x with isUsed := true }) s)
      else .thrown "Failed to verify OTP"
    else .ok (.otpExpired, s)

/-- Stored OTP collection after a `verifyOTP` call: a throw (rejected
save) leaves the collection unchanged. -/
def otpStoreAfter (s : List OTPRec) :
    JSOutcome (VerifyCode × List OTPRec) → List OTPRec
  | .ok (_, s') => s'
  | .thrown _ => s

/-- One `createOTP` call of a sequence. -/
structure CreateCall where
  email : String
  purpose : String
  code : String
  now : Nat
  ttl : Nat

/-- Run a sequence of `createOTP` calls against a store. -/
def runCreates (s : List OTPRec) : List CreateCall → List OTPRec
  | [] => s
  | c :: rest => runCreates (createOTP s c.email c.purpose c.code c.now c.ttl) rest

/-- Number of records for the pair (e, p) that are non-used and
non-expired at instant t. -/
def countActivePair (s : List OTPRec) (e p : String) (t : Nat) : Nat :=
  (s.filter fun r =>
    r.email == e && r.purpose == p && !r.isUsed && decide (t < r.expiresAt)).length

/-- Number of records for the pair (e, p) that are non-used. -/
def countFreshPair (s : List OTPRec) (e p : String) : Nat :=
  (s.filter fun r => r.email == e && r.purpose == p && !r.isUsed).length

/-- A concrete challenge whose attempt counter has reached 5 while still
unexpired and unused, with code 123456. -/
def exhaustedRec : OTPRec :=
  { email := "user@x.in", otp := "123456", purpose := "login",
    attempts := 5, isUsed := false, expiresAt := 1000, createdAt := 0 }

/-- A concrete challenge whose expiry time has passed, unused, with no
failed attempts, with code 123456. -/
def expiredRec : OTPRec :=
  { email := "user@x.in", otp := "123456", purpose := "login",
    attempts := 0, isUsed := false, expiresAt := 5, createdAt := 0 }

end OTPModel

namespace AuthModel

/-- The failure-tracking fields of the user schema. -/
structure UserAuth where
  loginAttempts : Nat
  lockUntil : Option Nat
deriving DecidableEq, Repr

/-- Source virtual `isLocked`: `lockUntil && lockUntil > Date.now()`. -/
def isLocked (u : UserAuth) (now : Nat) : Bool :=
  match u.lockUntil with
  | some t => decide (now < t)
  | none => false

/-- The `$inc`/`$set` update of `incLoginAttempts` when no stale lock is
present: increment the counter and set a 2-hour lock when it reaches 5. -/
def incMain (u : UserAuth) (now : Nat) : UserAuth :=
  { loginAttempts := u.loginAttempts + 1,
    lockUntil :=
      if 5 ≤ u.loginAttempts + 1 ∧ isLocked u now = false then
        some (now + 2 * 60 * 60 * 1000)
      else u.lockUntil }

/-- Source `incLoginAttempts()`: a previously set lock that has expired
restarts the counter at 1 and unsets the lock; otherwise the counter is
incremented, locking for 2 hours once it reaches 5. -/
def incLoginAttempts (u : UserAuth) (now : Nat) : UserAuth :=
  match u.lockUntil with
  | some t =>
    if t < now then { loginAttempts := 1, lockUntil := none }
    else incMain u now
  | none => incMain u now

/-- Source `resetLoginAttempts()`: unset the counter and the lock. -/
def resetLoginAttempts (_ : UserAuth) : UserAuth :=
  { loginAttempts := 0, lockUntil := none }

/-- Outcomes of the `POST /login` route that depend on the lockout
state (the user-not-found case needs no user state). -/
inductive LoginOutcome where
  | accountDeactivated | accountLocked | otpFailed | success
deriving DecidableEq, Repr

/-- Source `POST /login` on a found user: deactivated accounts are
rejected, then locked accounts fail with `ACCOUNT_LOCKED` before the OTP
is even checked, a failed OTP increments the attempt counter, and a
successful OTP resets it. -/
def login (u : UserAuth) (isActive otpOk : Bool) (now : Nat) :
    LoginOutcome × UserAuth :=
  if isActive = false then (.accountDeactivated, u)
  else if isLocked u now then (.accountLocked, u)
  else if otpOk = false then (.otpFailed, incLoginAttempts u now)
  else (.success, resetLoginAttempts u)

/-- A user with no recorded failures and no lock. -/
def freshUser : UserAuth := { loginAttempts := 0, lockUntil := none }

end AuthModel

theorem rbac_sanity_first_match :
    RBAC.canAccessRoute "security" "/security/scan" = true := by decide

/-- Claim C6: over the five roles of `ROLE_HIERARCHY`, `hasRoleLevel` is
reflexive, and for any two distinct roles exactly one direction of
`hasRoleLevel` holds — the hierarchy is a total order with no ties. -/
theorem hasRoleLevel_total_order :
    (∀ r ∈ RBAC.ROLES, RBAC.hasRoleLevel r r = true) ∧
    (∀ a ∈ RBAC.ROLES, ∀ b ∈ RBAC.ROLES, a ≠ b →
      (RBAC.hasRoleLevel a b = true ↔ RBAC.hasRoleLevel b a = false)) := by
  constructor
  · intro r hr
    fin_cases hr <;> decide
  · intro a ha b hb hab
    fin_cases ha <;> fin_cases hb <;> simp_all <;> decide

/-- Witness for C6 at the concrete pair (security, faculty). -/
theorem hasRoleLevel_total_order_witness :
    RBAC.hasRoleLevel "security" "security" = true ∧
    (RBAC.hasRoleLevel "security" "faculty" = true ↔
      RBAC.hasRoleLevel "faculty" "security" = false) :=
  ⟨hasRoleLevel_total_order.1 "security" (by decide),
   hasRoleLevel_total_order.2 "security" (by decide) "faculty" (by decide)
     (by decide)⟩

/-- Claim C10: the role `admin` has no entry in `ROLE_PERMISSIONS`, so
every capability check on it is denied. -/
theorem hasPermission_admin_false (c : String) :
    RBAC.hasPermission "admin" c = false := by
  by_cases hc : c = "" <;>
    simp [RBAC.hasPermission, RBAC.ROLE_PERMISSIONS, hc]

/-- Counterexample to claim C7: `canAccessRoute` is NOT a longest-prefix
match. The route `/securityincharge` is matched by the earlier table
entry `/security` first, so the role `security` is allowed there; under
the longest-prefix reading of the spec only `security_incharge` would be. -/
theorem canAccessRoute_not_longest_match :
    RBAC.canAccessRoute "security" "/securityincharge" = true ∧
    RBAC.canAccessRouteLongestMatch "security" "/securityincharge" = false := by
  decide

/-- Claim C7 (amended): `canAccessRoute` returns the verdict of the FIRST
entry of `ROUTE_ACCESS` (in its insertion order) whose pattern is a
prefix of the path; a non-empty path matching no prefix is allowed
exactly when it equals an entry of the public allowlist; and every role
is allowed for every path in the public allowlist. -/
theorem canAccessRoute_first_match_spec :
    (∀ role ∈ RBAC.ROLES, ∀ p ∈ RBAC.publicRoutes,
      RBAC.canAccessRoute role p = true) ∧
    (∀ role route, role ≠ "" → route ≠ "" →
      RBAC.ROUTE_ACCESS.find? (fun e => RBAC.jsStartsWith route e.fst) = none →
      RBAC.canAccessRoute role route = RBAC.publicRoutes.contains route) ∧
    (∀ role route e, role ≠ "" → route ≠ "" →
      RBAC.ROUTE_ACCESS.find? (fun e => RBAC.jsStartsWith route e.fst) = some e →
      RBAC.canAccessRoute role route = e.snd.contains role) := by
  refine ⟨?_, ?_, ?_⟩
  · intro role hrole p hp
    fin_cases hrole <;> fin_cases hp <;> decide
  · intro role route hrole hroute hfind
    simp [RBAC.canAccessRoute, hrole, hroute, hfind]
  · intro role route e hrole hroute hfind
    simp [RBAC.canAccessRoute, hrole, hroute, hfind]

/-- If the document being saved has a clean assignment whenever its
status is not `assigned`, then saving it over any store state that
satisfies the invariant yields a store state that satisfies the
invariant (a rejected save keeps the old state). -/
theorem saveKey_invariant (base k : KeyModel.Key)
    (hbase : KeyModel.KeyInvariant base)
    (hk : k.currentStatus ≠ .assigned →
      k.currentAssignment = KeyModel.emptyAssignment) :
    KeyModel.KeyInvariant (KeyModel.keyStoreAfter base (KeyModel.saveKey k)) := by
  by_cases hs : k.currentStatus = KeyModel.KeyStatus.assigned
  · by_cases ha : k.currentAssignment.assignedTo = none
    · have hred : KeyModel.saveKey k =
          .thrown "Assigned key must have assignedTo user" := by
        by_cases hq : k.qrCode = none ∧ k.keyId ≠ "" <;>
          simp [KeyModel.saveKey, hq, hs, ha]
      rw [hred]
      exact hbase
    · by_cases hq : k.qrCode = none ∧ k.keyId ≠ "" <;>
        simp [KeyModel.saveKey, KeyModel.keyStoreAfter, hq, hs, ha,
          KeyModel.KeyInvariant]
  · have hempty := hk hs
    have ha : k.currentAssignment.assignedTo = none := by
      rw [hempty]; rfl
    by_cases hq : k.qrCode = none ∧ k.keyId ≠ "" <;>
      simp [KeyModel.saveKey, KeyModel.keyStoreAfter, hq, hs, ha, hempty,
        KeyModel.KeyInvariant, KeyModel.emptyAssignment]

/-- Claim C1: every key-lifecycle operation — `assignTo`, `returnKey`,
`markAsMaintenance`, `markAsAvailable`, and a bare save through the
pre-save hook — preserves the invariant that the stored key is
`assigned` exactly when its assignment has a holder, and that any other
status has all assignment fields cleared. -/
theorem key_ops_preserve_invariant (k : KeyModel.Key)
    (h : KeyModel.KeyInvariant k) :
    (∀ u p d now, KeyModel.KeyInvariant
      (KeyModel.keyStoreAfter k (KeyModel.assignTo k u p d now))) ∧
    KeyModel.KeyInvariant (KeyModel.keyStoreAfter k (KeyModel.returnKey k)) ∧
    (∀ notes now, KeyModel.KeyInvariant
      (KeyModel.keyStoreAfter k (KeyModel.markAsMaintenance k notes now))) ∧
    KeyModel.KeyInvariant (KeyModel.keyStoreAfter k (KeyModel.markAsAvailable k)) ∧
    KeyModel.KeyInvariant (KeyModel.keyStoreAfter k (KeyModel.saveKey k)) := by
  obtain ⟨h1, h2⟩ := h
  refine ⟨?_, ?_, ?_, ?_, ?_⟩
  · intro u p d now
    by_cases hs : k.currentStatus = KeyModel.KeyStatus.available
    · rw [show KeyModel.assignTo k u p d now =
          KeyModel.saveKey (KeyModel.assignDoc k u p d now) from by
        unfold KeyModel.assignTo
        rw [if_neg (by simp [hs])]]
      exact saveKey_invariant k _ ⟨h1, h2⟩ (fun hc => absurd rfl hc)
    · rw [show KeyModel.assignTo k u p d now =
          .thrown "Key is not available for assignment" from by
        unfold KeyModel.assignTo
        rw [if_pos (by simp [hs])]]
      exact ⟨h1, h2⟩
  · by_cases hs : k.currentStatus = KeyModel.KeyStatus.assigned
    · have hred : KeyModel.returnKey k =
          KeyModel.saveKey
            { k with
                currentStatus := .available,
                currentAssignment := KeyModel.emptyAssignment } := by
        unfold KeyModel.returnKey
        rw [if_neg (by simp [hs])]
      rw [hred]
      exact saveKey_invariant k _ ⟨h1, h2⟩ (fun _ => rfl)
    · rw [show KeyModel.returnKey k =
          .thrown "Key is not currently assigned" from by
        unfold KeyModel.returnKey
        rw [if_pos (by simp [hs])]]
      exact ⟨h1, h2⟩
  · intro notes now
    refine saveKey_invariant k _ ⟨h1, h2⟩ (fun _ => ?_)
    unfold KeyModel.maintenanceDoc
    by_cases ha : k.currentAssignment.assignedTo = none
    · rw [if_neg (by simpa using ha)]
      exact h2 (fun habs => (h1.mp habs) ha)
    · rw [if_pos (by simpa using ha)]
  · by_cases hs : k.currentStatus = KeyModel.KeyStatus.assigned
    · rw [show KeyModel.markAsAvailable k = .thrown
          "Cannot mark assigned key as available. Return the key first." from by
        unfold KeyModel.markAsAvailable
        rw [if_pos hs]]
      exact ⟨h1, h2⟩
    · have hred : KeyModel.markAsAvailable k =
          KeyModel.saveKey { k with currentStatus := .available } := by
        unfold KeyModel.markAsAvailable
        rw [if_neg hs]
      rw [hred]
      exact saveKey_invariant k _ ⟨h1, h2⟩ (fun _ => h2 hs)
  · exact saveKey_invariant k k ⟨h1, h2⟩ h2

/-- Witness for C1 at a concrete available key with a clean assignment. -/
theorem key_ops_preserve_invariant_witness :
    KeyModel.KeyInvariant
      { keyId := "K001", currentStatus := .available, maxAllowedTime := 480,
        allowedRoles := [], currentAssignment := KeyModel.emptyAssignment,
        lastMaintenance := none, maintenanceNotes := none,
        qrCode := none : KeyModel.Key } ∧
    KeyModel.KeyInvariant (KeyModel.keyStoreAfter
      { keyId := "K001", currentStatus := .available, maxAllowedTime := 480,
        allowedRoles := [], currentAssignment := KeyModel.emptyAssignment,
        lastMaintenance := none, maintenanceNotes := none,
        qrCode := none : KeyModel.Key }
      (KeyModel.assignTo
        { keyId := "K001", currentStatus := .available, maxAllowedTime := 480,
          allowedRoles := [], currentAssignment := KeyModel.emptyAssignment,
          lastMaintenance := none, maintenanceNotes := none,
          qrCode := none : KeyModel.Key }
        (some "user1") (some "lab session") (some 60) 1000)) :=
  ⟨by decide,
   (key_ops_preserve_invariant _ (by decide)).1 (some "user1")
     (some "lab session") (some 60) 1000⟩
/-- Witness for C7 (amended) at concrete roles and routes. -/
theorem canAccessRoute_first_match_spec_witness :
    RBAC.canAccessRoute "faculty" "/login" = true ∧
    RBAC.canAccessRoute "faculty" "/unknown" = RBAC.publicRoutes.contains "/unknown" ∧
    RBAC.canAccessRoute "hod" "/faculty/keys" = ["faculty", "hod"].contains "hod" :=
  ⟨canAccessRoute_first_match_spec.1 "faculty" (by decide) "/login" (by decide),
   canAccessRoute_first_match_spec.2.1 "faculty" "/unknown" (by decide)
     (by decide) (by decide),
   canAccessRoute_first_match_spec.2.2 "hod" "/faculty/keys"
     ("/faculty", ["faculty", "hod"]) (by decide) (by decide) (by decide)⟩

/-- A save of an `assigned` document with a holder always succeeds and
preserves the status and assignment fields (only the QR code may be
filled in). -/
theorem saveKey_assigned_some_ok (k : KeyModel.Key)
    (hs : k.currentStatus = .assigned)
    (ha : k.currentAssignment.assignedTo ≠ none) :
    ∃ k', KeyModel.saveKey k = .ok k' ∧
      k'.currentStatus = k.currentStatus ∧
      k'.currentAssignment = k.currentAssignment := by
  by_cases hq : k.qrCode = none ∧ k.keyId ≠ ""
  · refine ⟨{ k with qrCode := some (k.keyId ++ "-QR") }, ?_, rfl, rfl⟩
    simp [KeyModel.saveKey, hq, hs, ha]
  · refine ⟨k, ?_, rfl, rfl⟩
    simp [KeyModel.saveKey, hq, hs, ha]

/-- `assignTo` on an available key with a non-null holder succeeds, and
the stored document carries exactly the computed assignment record. -/
theorem assignTo_ok_of_available (k : KeyModel.Key) (x : String)
    (p : Option String) (d : Option Nat) (now : Nat)
    (hs : k.currentStatus = .available) :
    ∃ k', KeyModel.assignTo k (some x) p d now = .ok k' ∧
      k'.currentStatus = .assigned ∧
      k'.currentAssignment =
        { assignedTo := some x, assignedAt := some now,
          expectedReturnAt := some (now +
            KeyModel.effectiveDuration d k.maxAllowedTime * 60 * 1000),
          purpose := some (KeyModel.purposeOrDefault p) } := by
  have hred : KeyModel.assignTo k (some x) p d now =
      KeyModel.saveKey (KeyModel.assignDoc k (some x) p d now) := by
    unfold KeyModel.assignTo
    rw [if_neg (by simp [hs])]
  obtain ⟨k', hok, hst, hasn⟩ :=
    saveKey_assigned_some_ok (KeyModel.assignDoc k (some x) p d now) rfl
      (by simp [KeyModel.assignDoc])
  refine ⟨k', by rw [hred, hok], ?_, ?_⟩
  · rw [hst]; rfl
  · rw [hasn]; rfl

/-- Counterexample to claim C4: on a non-available key, `assignTo` does
not return a typed `CONFLICT` result — it throws the string error of the
source (`JSOutcome.thrown`, the embedding of a JS `throw`); the stored
state is nevertheless unchanged. -/
theorem assignTo_nonavailable_throws_counterexample :
    KeyModel.assignTo KeyModel.sampleMaintenanceKey (some "user1")
      (some "work") (some 60) 0 =
      .thrown "Key is not available for assignment" ∧
    (KeyModel.assignTo KeyModel.sampleMaintenanceKey (some "user1")
      (some "work") (some 60) 0).isOk = false ∧
    KeyModel.keyStoreAfter KeyModel.sampleMaintenanceKey
      (KeyModel.assignTo KeyModel.sampleMaintenanceKey (some "user1")
        (some "work") (some 60) 0) = KeyModel.sampleMaintenanceKey := by
  decide

/-- Claim C4 (amended): for every key whose status is not `available`,
`assignTo` fails by THROWING the error "Key is not available for
assignment" (a thrown exception, not a typed `CONFLICT` result) and
leaves the stored state of the key byte-for-byte unchanged. -/
theorem assignTo_nonavailable_unchanged (k : KeyModel.Key)
    (u p : Option String) (d : Option Nat) (now : Nat)
    (h : k.currentStatus ≠ .available) :
    KeyModel.assignTo k u p d now =
      .thrown "Key is not available for assignment" ∧
    KeyModel.keyStoreAfter k (KeyModel.assignTo k u p d now) = k := by
  have hred : KeyModel.assignTo k u p d now =
      .thrown "Key is not available for assignment" := by
    unfold KeyModel.assignTo
    rw [if_pos h]
  exact ⟨hred, by rw [hred]; rfl⟩

/-- Witness for C4 (amended) at the concrete maintenance key. -/
theorem assignTo_nonavailable_unchanged_witness :
    KeyModel.assignTo KeyModel.sampleMaintenanceKey (some "u2") none
      (some 30) 7 = .thrown "Key is not available for assignment" ∧
    KeyModel.keyStoreAfter KeyModel.sampleMaintenanceKey
      (KeyModel.assignTo KeyModel.sampleMaintenanceKey (some "u2") none
        (some 30) 7) = KeyModel.sampleMaintenanceKey :=
  assignTo_nonavailable_unchanged KeyModel.sampleMaintenanceKey
    (some "u2") none (some 30) 7 (by decide)

/-- Counterexample to claim C9: a successful assign with requested
duration 0 does not get effective duration `min(0, maxAllowedTime) = 0`.
In JS, `durationMinutes || this.maxAllowedTime` treats 0 as falsy, so the
stored `expectedReturnAt` is `now + maxAllowedTime` minutes (28 800 000 ms
for the 480-minute sample key at now = 0), not `now + 0`. -/
theorem assignTo_duration_zero_counterexample :
    (KeyModel.keyStoreAfter KeyModel.sampleAvailableKey
      (KeyModel.assignTo KeyModel.sampleAvailableKey (some "user1")
        (some "work") (some 0) 0)).currentAssignment.expectedReturnAt =
      some (0 + 480 * 60 * 1000) ∧
    some (0 + 480 * 60 * 1000) ≠
      some (0 + min 0 KeyModel.sampleAvailableKey.maxAllowedTime * 60 * 1000) := by
  decide

/-- Claim C9 (amended): for every successful assign with a POSITIVE
requested duration d, the effective duration is
`min(d, key.maxAllowedTime)`: the stored `expectedReturnAt` equals the
assignment time plus that minimum (a zero or absent requested duration is
falsy in JS and instead defaults to `maxAllowedTime`). -/
theorem assignTo_effective_duration_min (k : KeyModel.Key) (x : String)
    (p : Option String) (d now : Nat)
    (hs : k.currentStatus = .available) (hd : 0 < d) :
    ∃ k', KeyModel.assignTo k (some x) p (some d) now = .ok k' ∧
      k'.currentAssignment.assignedAt = some now ∧
      k'.currentAssignment.expectedReturnAt =
        some (now + min d k.maxAllowedTime * 60 * 1000) := by
  obtain ⟨k', hok, _, hasn⟩ := assignTo_ok_of_available k x p (some d) now hs
  refine ⟨k', hok, ?_, ?_⟩
  · rw [hasn]
  · rw [hasn]
    have : KeyModel.effectiveDuration (some d) k.maxAllowedTime =
        min d k.maxAllowedTime := by
      simp only [KeyModel.effectiveDuration]
      rw [if_neg (Nat.pos_iff_ne_zero.mp hd)]
    rw [this]

/-- Witness for C9 (amended): duration 60 on the 480-minute sample key
at time 1000 yields return time 1000 + 60 minutes. -/
theorem assignTo_effective_duration_min_witness :
    ∃ k', KeyModel.assignTo KeyModel.sampleAvailableKey (some "user1")
        (some "lab") (some 60) 1000 = .ok k' ∧
      k'.currentAssignment.assignedAt = some 1000 ∧
      k'.currentAssignment.expectedReturnAt =
        some (1000 + min 60 KeyModel.sampleAvailableKey.maxAllowedTime * 60 * 1000) :=
  assignTo_effective_duration_min KeyModel.sampleAvailableKey "user1"
    (some "lab") 60 1000 (by decide) (by decide)

/-- Counterexample to claim C5: `assignTo` is a plain read-then-write
with no compare-and-swap, so when two callers both read key `K001` in
status `available` before either write lands, BOTH calls succeed and the
second write silently overwrites the first (final holder = userB) — the
claimed unique winner / `CONFLICT` loser does not hold. -/
theorem assignTo_race_counterexample :
    (KeyModel.assignTo KeyModel.sampleAvailableKey (some "userA") none
      (some 60) 0).isOk = true ∧
    (KeyModel.assignTo KeyModel.sampleAvailableKey (some "userB") none
      (some 60) 0).isOk = true ∧
    (KeyModel.keyStoreAfter
      (KeyModel.keyStoreAfter KeyModel.sampleAvailableKey
        (KeyModel.assignTo KeyModel.sampleAvailableKey (some "userA") none
          (some 60) 0))
      (KeyModel.assignTo KeyModel.sampleAvailableKey (some "userB") none
        (some 60) 0)).currentAssignment.assignedTo = some "userB" := by
  decide

/-- Claim C5 (amended): the assign transition is a plain read-then-write
with no compare-and-swap. When both callers read the same `available`
snapshot before either write lands, both calls report success and the
second write overwrites the first (a lost update); only when the calls
are serialized (the second caller reads the written state of the first
caller) does the loser observe the thrown not-available error. -/
theorem assignTo_race_lost_update (k : KeyModel.Key) (a b : String)
    (pa pb : Option String) (da db : Option Nat) (t1 t2 : Nat)
    (hs : k.currentStatus = .available) :
    ((KeyModel.assignTo k (some a) pa da t1).isOk = true ∧
     (KeyModel.assignTo k (some b) pb db t2).isOk = true ∧
     (KeyModel.keyStoreAfter
       (KeyModel.keyStoreAfter k (KeyModel.assignTo k (some a) pa da t1))
       (KeyModel.assignTo k (some b) pb db t2)).currentAssignment.assignedTo =
       some b) ∧
    (∀ k1, KeyModel.assignTo k (some a) pa da t1 = .ok k1 →
      KeyModel.assignTo k1 (some b) pb db t2 =
        .thrown "Key is not available for assignment") := by
  obtain ⟨k1, hok1, hst1, hasn1⟩ := assignTo_ok_of_available k a pa da t1 hs
  obtain ⟨k2, hok2, hst2, hasn2⟩ := assignTo_ok_of_available k b pb db t2 hs
  refine ⟨⟨?_, ?_, ?_⟩, ?_⟩
  · rw [hok1]; rfl
  · rw [hok2]; rfl
  · rw [hok1, hok2]
    show k2.currentAssignment.assignedTo = some b
    rw [hasn2]
  · intro kw hw
    have hkw : kw = k1 := by
      have := hw.symm.trans hok1
      exact (JSOutcome.ok.injEq _ _).mp this.symm |>.symm ▸ rfl
    subst hkw
    unfold KeyModel.assignTo
    rw [if_pos (by rw [hst1]; decide)]

/-- Witness for C5 (amended): the concrete interleaved and serial
executions on the sample available key. -/
theorem assignTo_race_lost_update_witness :
    ((KeyModel.assignTo KeyModel.sampleAvailableKey (some "userA") none
        (some 60) 0).isOk = true ∧
     (KeyModel.assignTo KeyModel.sampleAvailableKey (some "userB") none
        (some 60) 0).isOk = true ∧
     (KeyModel.keyStoreAfter
       (KeyModel.keyStoreAfter KeyModel.sampleAvailableKey
         (KeyModel.assignTo KeyModel.sampleAvailableKey (some "userA") none
           (some 60) 0))
       (KeyModel.assignTo KeyModel.sampleAvailableKey (some "userB") none
         (some 60) 0)).currentAssignment.assignedTo = some "userB") ∧
    KeyModel.assignTo
      (KeyModel.assignDoc KeyModel.sampleAvailableKey (some "userA") none
        (some 60) 0) (some "userB") none (some 60) 0 =
      .thrown "Key is not available for assignment" :=
  ⟨(assignTo_race_lost_update KeyModel.sampleAvailableKey "userA" "userB"
      none none (some 60) (some 60) 0 0 (by decide)).1,
   (assignTo_race_lost_update KeyModel.sampleAvailableKey "userA" "userB"
      none none (some 60) (some 60) 0 0 (by decide)).2
     (KeyModel.assignDoc KeyModel.sampleAvailableKey (some "userA") none
       (some 60) 0) (by decide)⟩

/-- Claim C8: five consecutive recorded authentication failures on a
fresh identity set `lockUntil` to the time of the fifth failure plus 2
hours; for the whole window the account reads as locked and every login
attempt — even with a correct OTP — fails with `ACCOUNT_LOCKED`. -/
theorem lockout_after_five_failures (t1 t2 t3 t4 t5 t : Nat) (ok : Bool)
    (ht : t < t5 + 2 * 60 * 60 * 1000) :
    (AuthModel.incLoginAttempts
      (AuthModel.incLoginAttempts
        (AuthModel.incLoginAttempts
          (AuthModel.incLoginAttempts
            (AuthModel.incLoginAttempts AuthModel.freshUser t1) t2) t3) t4)
      t5).lockUntil = some (t5 + 2 * 60 * 60 * 1000) ∧
    AuthModel.isLocked
      (AuthModel.incLoginAttempts
        (AuthModel.incLoginAttempts
          (AuthModel.incLoginAttempts
            (AuthModel.incLoginAttempts
              (AuthModel.incLoginAttempts AuthModel.freshUser t1) t2) t3) t4)
        t5) t = true ∧
    (AuthModel.login
      (AuthModel.incLoginAttempts
        (AuthModel.incLoginAttempts
          (AuthModel.incLoginAttempts
            (AuthModel.incLoginAttempts
              (AuthModel.incLoginAttempts AuthModel.freshUser t1) t2) t3) t4)
        t5) true ok t).1 = .accountLocked := by
  have h5 : AuthModel.incLoginAttempts
      (AuthModel.incLoginAttempts
        (AuthModel.incLoginAttempts
          (AuthModel.incLoginAttempts
            (AuthModel.incLoginAttempts AuthModel.freshUser t1) t2) t3) t4)
      t5 =
      { loginAttempts := 5, lockUntil := some (t5 + 2 * 60 * 60 * 1000) } := rfl
  rw [h5]
  have hlock : AuthModel.isLocked
      { loginAttempts := 5, lockUntil := some (t5 + 2 * 60 * 60 * 1000) } t =
      true := by
    simp [AuthModel.isLocked, ht]
  refine ⟨rfl, hlock, ?_⟩
  simp [AuthModel.login, hlock]

/-- Witness for C8 at concrete failure times 0 and probe time 1. -/
theorem lockout_after_five_failures_witness :
    (AuthModel.incLoginAttempts
      (AuthModel.incLoginAttempts
        (AuthModel.incLoginAttempts
          (AuthModel.incLoginAttempts
            (AuthModel.incLoginAttempts AuthModel.freshUser 0) 0) 0) 0)
      0).lockUntil = some (0 + 2 * 60 * 60 * 1000) ∧
    AuthModel.isLocked
      (AuthModel.incLoginAttempts
        (AuthModel.incLoginAttempts
          (AuthModel.incLoginAttempts
            (AuthModel.incLoginAttempts
              (AuthModel.incLoginAttempts AuthModel.freshUser 0) 0) 0) 0)
        0) 1 = true ∧
    (AuthModel.login
      (AuthModel.incLoginAttempts
        (AuthModel.incLoginAttempts
          (AuthModel.incLoginAttempts
            (AuthModel.incLoginAttempts
              (AuthModel.incLoginAttempts AuthModel.freshUser 0) 0) 0) 0)
        0) true true 1).1 = .accountLocked :=
  lockout_after_five_failures 0 0 0 0 0 1 true (by decide)

/-- Claim C3 evaluated on the code (the failing inputs of the code_bug):
`findValidOTP` filters `attempts < 5` and `expiresAt > now`, so the
`OTP_EXPIRED` branch behind it is unreachable. For a challenge whose
attempts have reached 5, `verifyOTP` with the CORRECT code tries to
increment the counter to 6, the `attempts` max-5 schema validator
rejects that save, and the call throws `Failed to verify OTP` with the
store unchanged; for a challenge whose expiry has passed it returns
`INVALID_OTP` (no record to increment). Neither terminal case yields
the claimed `OTP_EXPIRED`. -/
theorem verifyOTP_terminal_no_otp_expired :
    OTPModel.verifyOTP [OTPModel.exhaustedRec] "user@x.in" "123456"
      "login" 10 = .thrown "Failed to verify OTP" ∧
    OTPModel.otpStoreAfter [OTPModel.exhaustedRec]
      (OTPModel.verifyOTP [OTPModel.exhaustedRec] "user@x.in" "123456"
        "login" 10) = [OTPModel.exhaustedRec] ∧
    OTPModel.verifyOTP [OTPModel.expiredRec] "user@x.in" "123456"
      "login" 10 = .ok (.invalidOtp, [OTPModel.expiredRec]) := by
  decide

/-- Active (non-used, non-expired) records are a subset of the non-used
records of a pair, so the counts are ordered. -/
theorem countActive_le_countFresh (s : List OTPModel.OTPRec) (e p : String)
    (t : Nat) :
    OTPModel.countActivePair s e p t ≤ OTPModel.countFreshPair s e p := by
  induction s with
  | nil => simp [OTPModel.countActivePair, OTPModel.countFreshPair]
  | cons r rest ih =>
    simp only [OTPModel.countActivePair, OTPModel.countFreshPair,
      List.filter_cons] at ih ⊢
    cases hf : (r.email == e && r.purpose == p && !r.isUsed) with
    | false => simp [hf]; omega
    | true =>
      cases hd : (decide (t < r.expiresAt)) with
      | false => simp [hf, hd]; omega
      | true => simp [hf, hd]; omega

/-- After the `updateMany` marking of `createOTP`, no non-used record is
left for the marked (email, purpose) pair. -/
theorem countFreshPair_marked_zero (s : List OTPModel.OTPRec) (e p : String) :
    OTPModel.countFreshPair
      (s.map fun r =>
        if r.email = e ∧ r.purpose = p ∧ r.isUsed = false then
          { r with isUsed := true }
        else r) e p = 0 := by
  induction s with
  | nil => rfl
  | cons r rest ih =>
    simp only [List.map_cons, OTPModel.countFreshPair, List.filter_cons] at ih ⊢
    by_cases hc : r.email = e ∧ r.purpose = p ∧ r.isUsed = false
    · simpa [hc] using ih
    · have hfalse : (r.email == e && r.purpose == p && !r.isUsed) = false := by
        cases hu : r.isUsed with
        | true => simp [hu]
        | false =>
          by_cases h1 : r.email = e
          · by_cases h2 : r.purpose = p
            · exact absurd ⟨h1, h2, hu⟩ hc
            · simp [h2]
          · simp [h1]
      simpa [hc, hfalse] using ih

/-- The `updateMany` marking never increases the number of non-used
records of any pair. -/
theorem countFreshPair_marked_le (s : List OTPModel.OTPRec)
    (e0 p0 e p : String) :
    OTPModel.countFreshPair
      (s.map fun r =>
        if r.email = e0 ∧ r.purpose = p0 ∧ r.isUsed = false then
          { r with isUsed := true }
        else r) e p ≤ OTPModel.countFreshPair s e p := by
  induction s with
  | nil => simp [OTPModel.countFreshPair]
  | cons r rest ih =>
    simp only [List.map_cons, OTPModel.countFreshPair, List.filter_cons] at ih ⊢
    by_cases hc : r.email = e0 ∧ r.purpose = p0 ∧ r.isUsed = false
    · cases hf : (r.email == e && r.purpose == p && !r.isUsed) with
      | false => simp [hc, hf]; omega
      | true => simp [hc, hf]; omega
    · cases hf : (r.email == e && r.purpose == p && !r.isUsed) with
      | false => simp [hc, hf]; omega
      | true => simp [hc, hf]; omega

/-- A `createOTP` call keeps the per-pair non-used count at most one:
for its own pair it resets the count to exactly one (the new record);
for every other pair it can only mark records used. -/
theorem countFreshPair_createOTP_le_one (s : List OTPModel.OTPRec)
    (email purpose code : String) (now ttl : Nat) (e p : String)
    (h : OTPModel.countFreshPair s e p ≤ 1) :
    OTPModel.countFreshPair
      (OTPModel.createOTP s email purpose code now ttl) e p ≤ 1 := by
  by_cases hpair : e = jsToLower email ∧ p = purpose
  · obtain ⟨he, hp⟩ := hpair
    rw [he, hp]
    simp only [OTPModel.createOTP, OTPModel.countFreshPair, List.filter_cons]
    have hzero := countFreshPair_marked_zero s (jsToLower email) purpose
    simp only [OTPModel.countFreshPair] at hzero
    simp [hzero]
  · have hhead : ¬(jsToLower email = e ∧ purpose = p) := by
      intro hcc
      exact hpair ⟨hcc.1.symm, hcc.2.symm⟩
    have hle := countFreshPair_marked_le s (jsToLower email) purpose e p
    simp only [OTPModel.createOTP, OTPModel.countFreshPair,
      List.filter_cons] at hle ⊢
    by_cases h1 : jsToLower email = e
    · have h2 : ¬(purpose = p) := fun hcc => hhead ⟨h1, hcc⟩
      simp only [OTPModel.countFreshPair] at h
      simp [h2]
      omega
    · simp only [OTPModel.countFreshPair] at h
      simp [h1]
      omega

/-- Running any sequence of creates preserves the at-most-one-non-used
invariant for every pair. -/
theorem runCreates_fresh_le_one (calls : List OTPModel.CreateCall)
    (s : List OTPModel.OTPRec)
    (h : ∀ e p, OTPModel.countFreshPair s e p ≤ 1) :
    ∀ e p, OTPModel.countFreshPair (OTPModel.runCreates s calls) e p ≤ 1 := by
  induction calls generalizing s with
  | nil => exact h
  | cons c rest ih =>
    exact ih _ fun e p =>
      countFreshPair_createOTP_le_one s c.email c.purpose c.code c.now c.ttl
        e p (h e p)

/-- Claim C2: after any sequence of `createOTP` calls from an empty
store, every (email, purpose) pair has at most one non-used, non-expired
challenge at any instant; and each create marks every prior record of
its own pair as used (records behind the new head that still match the
pair are all used). -/
theorem otp_single_active_invariant :
    (∀ (calls : List OTPModel.CreateCall) (e p : String) (t : Nat),
      OTPModel.countActivePair (OTPModel.runCreates [] calls) e p t ≤ 1) ∧
    (∀ (s : List OTPModel.OTPRec) (email purpose code : String)
      (now ttl : Nat),
      ∀ r ∈ (OTPModel.createOTP s email purpose code now ttl).tail,
        r.email = jsToLower email → r.purpose = purpose → r.isUsed = true) := by
  constructor
  · intro calls e p t
    exact le_trans (countActive_le_countFresh _ e p t)
      (runCreates_fresh_le_one calls []
        (by intro e p; simp [OTPModel.countFreshPair]) e p)
  · intro s email purpose code now ttl r hr he hp
    simp only [OTPModel.createOTP, List.tail_cons, List.mem_map] at hr
    obtain ⟨r0, _, heq⟩ := hr
    by_cases hc : r0.email = jsToLower email ∧ r0.purpose = purpose ∧
        r0.isUsed = false
    · rw [← heq]
      simp [hc]
    · have hrr : r = r0 := by rw [← heq, if_neg hc]
      rw [hrr] at he hp ⊢
      cases hu : r0.isUsed with
      | false => exact absurd ⟨he, hp, hu⟩ hc
      | true => rfl

/-- Witness for C2 at a concrete two-create sequence and a concrete
prior record. -/
theorem otp_single_active_invariant_witness :
    OTPModel.countActivePair
      (OTPModel.runCreates []
        [{ email := "a@x.in", purpose := "login", code := "111111",
           now := 0, ttl := 300000 },
         { email := "a@x.in", purpose := "login", code := "222222",
           now := 10, ttl := 300000 }]) "a@x.in" "login" 20 ≤ 1 ∧
    ({ email := "a@x.in", otp := "111111", purpose := "login",
       attempts := 0, isUsed := true, expiresAt := 300000,
       createdAt := 0 : OTPModel.OTPRec }).isUsed = true :=
  ⟨otp_single_active_invariant.1
    [{ email := "a@x.in", purpose := "login", code := "111111",
       now := 0, ttl := 300000 },
     { email := "a@x.in", purpose := "login", code := "222222",
       now := 10, ttl := 300000 }] "a@x.in" "login" 20,
   otp_single_active_invariant.2
    [{ email := "a@x.in", otp := "111111", purpose := "login",
       attempts := 0, isUsed := false, expiresAt := 300000,
       createdAt := 0 : OTPModel.OTPRec }]
    "a@x.in" "login" "222222" 10 300000
    { email := "a@x.in", otp := "111111", purpose := "login",
      attempts := 0, isUsed := true, expiresAt := 300000, createdAt := 0 }
    (by decide) (by decide) (by decide)⟩
